import Mathlib

/-!
Verification development for the lets-debate frontend.

Two components are embedded here, translated from the TypeScript source:

* `LetsDebate.Api` — the axios client of `lib/api.ts`: the request
  interceptor that attaches the access-token cookie as a bearer header,
  and the response interceptor that on a 401 performs a single
  refresh-and-retry (guarded by the `_retry` marker and the auth-path
  check), persisting refreshed credentials in cookies and clearing them
  (with a guarded redirect to `/login`) when the refresh itself fails.

* `LetsDebate.Store` — the zustand debate store of `store/debate.ts`:
  the WebSocket `onmessage` / `onclose` handlers that fold inbound
  protocol events into the store state, and the `connectWebSocket`,
  `startDebate`, `pauseDebate` actions.

The embedding is shallow: cookies are explicit records, the HTTP server
and the WebSocket ready states are parameters, and the interceptor loop
is a fuelled evaluator (the `_retry` marker bounds the recursion depth
at one retry, so any fuel of at least 2 gives the code's behaviour).
-/

namespace LetsDebate

namespace Api

/-- The two cookie slots used by the client (`js-cookie`). `none` means
the cookie is absent. -/
structure Cookies where
  access : Option String
  refresh : Option String
deriving Repr, DecidableEq

/-- The parts of an axios request config the interceptors read or write:
`url`, the `_retry` marker, and the `Authorization` header value. -/
structure ReqConfig where
  url : Option String
  retry : Bool
  auth : Option String
deriving Repr, DecidableEq

/-- Body of a successful `POST /auth/refresh` response:
`{ access_token, refresh_token }`, the latter possibly missing. -/
structure RefreshResponse where
  access_token : String
  refresh_token : Option String
deriving Repr, DecidableEq

/-- The environment of one interceptor run: how the server answers api
requests (an HTTP status per request config), what `POST /auth/refresh`
returns (`none` = the refresh call rejects), and the browser context
used by the redirect guard. -/
structure Server where
  respond : ReqConfig → Nat
  refreshResult : String → Option RefreshResponse
  inBrowser : Bool
  pathname : String

/-- Observable side effects of a run: api requests delivered to the
server in order, refresh tokens posted to `/auth/refresh`, and
locations assigned to `window.location.href`. -/
structure Trace where
  sends : List ReqConfig
  refreshPosts : List String
  redirects : List String
deriving Repr, DecidableEq

/-- How a run of the request settles for the caller. -/
inductive Result where
  /-- the promise resolves with this HTTP status -/
  | ok (status : Nat)
  /-- `Promise.reject(error)` with the response's status -/
  | httpError (status : Nat)
  /-- `Promise.reject(refreshError)`; `noToken` is true when the
  rejection is the `"No refresh token available"` error -/
  | refreshError (noToken : Bool)
deriving Repr, DecidableEq

/-- `isAuthPath` from `lib/api.ts`: does the url contain one of the
auth handshake paths (`url.includes(path)`). -/
def isAuthPath : Option String → Bool
  | none => false
  | some url =>
    ["/auth/login", "/auth/register", "/auth/refresh"].any
      (fun p => decide (p.toList <:+: url.toList))

/-- The request interceptor: if an `access_token` cookie is present,
set the `Authorization` header to `Bearer <token>`. -/
def attachToken (ck : Cookies) (r : ReqConfig) : ReqConfig :=
  match ck.access with
  | some t => { r with auth := some ("Bearer " ++ t) }
  | none => r

/-- Axios' default `validateStatus`: a response resolves iff
`200 <= status < 300`. -/
def isSuccessStatus (status : Nat) : Bool :=
  decide (200 ≤ status) && decide (status < 300)

/-- The cookie update for the refresh token after a successful refresh:
`if (refresh_token) Cookies.set("refresh_token", refresh_token)` —
JavaScript truthiness, so a missing or empty token leaves the stored
one in place. -/
def persistRefresh (fromResponse old : Option String) : Option String :=
  match fromResponse with
  | some s => if s = "" then old else some s
  | none => old

/-- JavaScript `String.prototype.startsWith`, as a code-point prefix
check. -/
def strStartsWith (s pat : String) : Bool :=
  pat.toList.isPrefixOf s.toList

/-- The guarded redirect in the refresh `catch` block: assign
`/login` only in the browser and only when the current pathname does
not already start with `/login`. -/
def loginRedirects (srv : Server) : List String :=
  if srv.inBrowser && !(strStartsWith srv.pathname "/login") then ["/login"] else []

/-- One run of `api(config)` through both interceptors, fuelled.
Mirrors the response interceptor of `lib/api.ts`: reject immediately
for auth-handshake urls; on a 401 of a not-yet-retried request, mark it
retried, post the stored refresh token (failing fast when absent),
persist the returned tokens, reattach the new bearer header and
re-enter `api` with the original request; on refresh failure clear both
cookies, maybe redirect, and reject with the refresh error; any other
error rejects as is. The `_retry` marker makes fuel 2 sufficient. -/
def runRequest (srv : Server) : Nat → ReqConfig → Cookies → Trace → Result × Cookies × Trace
  | 0, _, ck, tr => (Result.refreshError false, ck, tr)
  | fuel+1, req0, ck, tr =>
    let req := attachToken ck req0
    let tr1 : Trace := { tr with sends := tr.sends ++ [req] }
    let status := srv.respond req
    if isSuccessStatus status then
      (Result.ok status, ck, tr1)
    else if isAuthPath req.url then
      (Result.httpError status, ck, tr1)
    else if status == 401 && !req.retry then
      match ck.refresh with
      | none =>
        (Result.refreshError true, ⟨none, none⟩,
          { tr1 with redirects := tr1.redirects ++ loginRedirects srv })
      | some rt =>
        let tr2 : Trace := { tr1 with refreshPosts := tr1.refreshPosts ++ [rt] }
        match srv.refreshResult rt with
        | none =>
          (Result.refreshError false, ⟨none, none⟩,
            { tr2 with redirects := tr2.redirects ++ loginRedirects srv })
        | some resp =>
          let ck1 : Cookies :=
            ⟨some resp.access_token, persistRefresh resp.refresh_token ck.refresh⟩
          runRequest srv fuel
            { req with retry := true, auth := some ("Bearer " ++ resp.access_token) }
            ck1 tr2
    else
      (Result.httpError status, ck, tr1)

theorem attachToken_url (ck : Cookies) (r : ReqConfig) :
    (attachToken ck r).url = r.url := by
  cases h : ck.access <;> simp [attachToken, h]

theorem attachToken_retry (ck : Cookies) (r : ReqConfig) :
    (attachToken ck r).retry = r.retry := by
  cases h : ck.access <;> simp [attachToken, h]

theorem attachToken_some (t : String) (rf : Option String) (r : ReqConfig) :
    attachToken ⟨some t, rf⟩ r = { r with auth := some ("Bearer " ++ t) } := rfl

/-- Full characterization of a run that hits a 401 off the auth paths,
with a stored refresh token and a succeeding refresh call: one refresh
post, cookies updated, the original request re-sent once with the new
bearer header and the retry marker, and the outcome of that single
retry returned to the caller (shared by the claim theorems below). -/
theorem runRequest_refresh_success (n : Nat) (srv : Server) (req : ReqConfig) (ck : Cookies)
    (rt : String) (resp : RefreshResponse)
    (h1 : isAuthPath req.url = false)
    (h2 : req.retry = false)
    (h3 : ck.refresh = some rt)
    (h4 : srv.respond (attachToken ck req) = 401)
    (h5 : srv.refreshResult rt = some resp) :
    runRequest srv (n+2) req ck ⟨[], [], []⟩ =
      (if isSuccessStatus (srv.respond ⟨req.url, true, some ("Bearer " ++ resp.access_token)⟩)
        then Result.ok (srv.respond ⟨req.url, true, some ("Bearer " ++ resp.access_token)⟩)
        else Result.httpError (srv.respond ⟨req.url, true, some ("Bearer " ++ resp.access_token)⟩),
       ⟨some resp.access_token, persistRefresh resp.refresh_token ck.refresh⟩,
       ⟨[attachToken ck req, ⟨req.url, true, some ("Bearer " ++ resp.access_token)⟩], [rt], []⟩) := by
  have hu : (attachToken ck req).url = req.url := attachToken_url ck req
  have hr : (attachToken ck req).retry = req.retry := attachToken_retry ck req
  simp only [runRequest, attachToken_some, hu, hr, h1, h2, h3, h4, h5]
  norm_num [isSuccessStatus]
  split <;> rfl


theorem runRequest_refresh_failure (n : Nat) (srv : Server) (req : ReqConfig) (ck : Cookies)
    (h1 : isAuthPath req.url = false)
    (h2 : req.retry = false)
    (h4 : srv.respond (attachToken ck req) = 401)
    (h5 : ∀ rt, ck.refresh = some rt → srv.refreshResult rt = none) :
    runRequest srv (n+1) req ck ⟨[], [], []⟩ =
      (Result.refreshError ck.refresh.isNone, ⟨none, none⟩,
       ⟨[attachToken ck req], ck.refresh.toList, loginRedirects srv⟩) := by
  have hu : (attachToken ck req).url = req.url := attachToken_url ck req
  have hr : (attachToken ck req).retry = req.retry := attachToken_retry ck req
  cases hcr : ck.refresh with
  | none =>
    simp only [runRequest, hu, hr, h1, h2, h4, hcr]
    norm_num [isSuccessStatus, Option.isNone, Option.toList]
  | some rt =>
    have h6 := h5 rt hcr
    simp only [runRequest, hu, hr, h1, h2, h4, hcr, h6]
    norm_num [isSuccessStatus, Option.isNone, Option.toList]

/-- C1: a 401 off the auth paths, on a not-yet-retried request with a
stored refresh token whose refresh call succeeds, posts exactly one
refresh carrying the stored token, persists the returned credentials,
re-sends the original request exactly once with the retry marker set
and the new bearer header, hands that retry's outcome to the caller —
and when the retry fails with 401 again, the failure is terminal. -/
theorem refresh_retry_once (n : Nat) (srv : Server) (req : ReqConfig) (ck : Cookies)
    (rt : String) (resp : RefreshResponse)
    (h1 : isAuthPath req.url = false)
    (h2 : req.retry = false)
    (h3 : ck.refresh = some rt)
    (h4 : srv.respond (attachToken ck req) = 401)
    (h5 : srv.refreshResult rt = some resp) :
    runRequest srv (n+2) req ck ⟨[], [], []⟩ =
      (if isSuccessStatus (srv.respond ⟨req.url, true, some ("Bearer " ++ resp.access_token)⟩)
        then Result.ok (srv.respond ⟨req.url, true, some ("Bearer " ++ resp.access_token)⟩)
        else Result.httpError (srv.respond ⟨req.url, true, some ("Bearer " ++ resp.access_token)⟩),
       ⟨some resp.access_token, persistRefresh resp.refresh_token ck.refresh⟩,
       ⟨[attachToken ck req, ⟨req.url, true, some ("Bearer " ++ resp.access_token)⟩], [rt], []⟩) ∧
    (srv.respond ⟨req.url, true, some ("Bearer " ++ resp.access_token)⟩ = 401 →
      (runRequest srv (n+2) req ck ⟨[], [], []⟩).1 = Result.httpError 401) := by
  have h := runRequest_refresh_success n srv req ck rt resp h1 h2 h3 h4 h5
  refine ⟨h, fun h401 => ?_⟩
  rw [h, h401]
  norm_num [isSuccessStatus]

def srvC1 : Server :=
  { respond := fun _ => 401,
    refreshResult := fun _ => some ⟨"newA", some "newR"⟩,
    inBrowser := true, pathname := "/debates/1" }

def reqApi : ReqConfig := ⟨some "/debates", false, none⟩

def ckApi : Cookies := ⟨some "old", some "rtok"⟩

/-- Witness for `refresh_retry_once` at a concrete server whose retried
request fails with 401 again: one refresh post, one re-send, terminal
`httpError 401`. -/
theorem refresh_retry_once_witness :
    runRequest srvC1 2 reqApi ckApi ⟨[], [], []⟩ =
      (Result.httpError 401, ⟨some "newA", some "newR"⟩,
       ⟨[⟨some "/debates", false, some "Bearer old"⟩,
         ⟨some "/debates", true, some "Bearer newA"⟩], ["rtok"], []⟩) :=
  ((refresh_retry_once 0 srvC1 reqApi ckApi "rtok" ⟨"newA", some "newR"⟩
    (by decide) rfl rfl rfl rfl).1).trans (by decide)

/-- C4: a 401 on an auth-handshake url propagates immediately — no
refresh post, no re-send, cookies untouched. -/
theorem authPath_failure_propagates (n : Nat) (srv : Server) (req : ReqConfig) (ck : Cookies)
    (h1 : isAuthPath req.url = true)
    (h4 : srv.respond (attachToken ck req) = 401) :
    runRequest srv (n+1) req ck ⟨[], [], []⟩ =
      (Result.httpError 401, ck, ⟨[attachToken ck req], [], []⟩) := by
  have hu : (attachToken ck req).url = req.url := attachToken_url ck req
  simp only [runRequest, hu, h1, h4]
  norm_num [isSuccessStatus]

def srvC4 : Server :=
  { respond := fun _ => 401, refreshResult := fun _ => some ⟨"newA", none⟩,
    inBrowser := true, pathname := "/debates/1" }

def reqC4 : ReqConfig := ⟨some "/api/v1/auth/login", false, none⟩

/-- Witness for `authPath_failure_propagates` on a login request. -/
theorem authPath_failure_propagates_witness :
    runRequest srvC4 1 reqC4 ckApi ⟨[], [], []⟩ =
      (Result.httpError 401, ⟨some "old", some "rtok"⟩,
       ⟨[⟨some "/api/v1/auth/login", false, some "Bearer old"⟩], [], []⟩) :=
  (authPath_failure_propagates 0 srvC4 reqC4 ckApi (by decide) rfl).trans (by decide)

/-- C5: when the refresh triggered by a 401 fails (including the
fail-fast case with no stored refresh token), both cookies are removed,
the caller gets the terminal refresh error without any re-send of the
original request, and the `/login` redirect fires only in the browser
and only when the pathname is not already under `/login`. -/
theorem refresh_failure_clears_credentials (n : Nat) (srv : Server) (req : ReqConfig) (ck : Cookies)
    (h1 : isAuthPath req.url = false)
    (h2 : req.retry = false)
    (h4 : srv.respond (attachToken ck req) = 401)
    (h5 : ∀ rt, ck.refresh = some rt → srv.refreshResult rt = none) :
    runRequest srv (n+1) req ck ⟨[], [], []⟩ =
      (Result.refreshError ck.refresh.isNone, ⟨none, none⟩,
       ⟨[attachToken ck req], ck.refresh.toList, loginRedirects srv⟩) ∧
    (strStartsWith srv.pathname "/login" = true → loginRedirects srv = []) ∧
    (loginRedirects srv ≠ [] →
      srv.inBrowser = true ∧ strStartsWith srv.pathname "/login" = false) := by
  refine ⟨runRequest_refresh_failure n srv req ck h1 h2 h4 h5, fun hp => ?_, fun hne => ?_⟩
  · simp [loginRedirects, hp]
  · by_cases hb : srv.inBrowser = true <;>
      by_cases hsw : strStartsWith srv.pathname "/login" = true <;>
      simp_all [loginRedirects]

def srvC5 : Server :=
  { respond := fun _ => 401, refreshResult := fun _ => none,
    inBrowser := true, pathname := "/debates/5" }

/-- Witness for `refresh_failure_clears_credentials`: refresh rejects,
cookies cleared, one redirect to `/login`. -/
theorem refresh_failure_clears_credentials_witness :
    runRequest srvC5 1 reqApi ckApi ⟨[], [], []⟩ =
      (Result.refreshError false, ⟨none, none⟩,
       ⟨[⟨some "/debates", false, some "Bearer old"⟩], ["rtok"], ["/login"]⟩) :=
  ((refresh_failure_clears_credentials 0 srvC5 reqApi ckApi
    (by decide) rfl rfl (fun _ _ => rfl)).1).trans (by decide)

/-- C10: after a successful refresh the access cookie is overwritten
with the returned token; the refresh cookie is left unchanged when the
response carries no `refresh_token`, and is changed only when the
response does carry one. -/
theorem refresh_persists_only_returned (n : Nat) (srv : Server) (req : ReqConfig) (ck : Cookies)
    (rt : String) (resp : RefreshResponse)
    (h1 : isAuthPath req.url = false)
    (h2 : req.retry = false)
    (h3 : ck.refresh = some rt)
    (h4 : srv.respond (attachToken ck req) = 401)
    (h5 : srv.refreshResult rt = some resp) :
    (runRequest srv (n+2) req ck ⟨[], [], []⟩).2.1.access = some resp.access_token ∧
    (resp.refresh_token = none →
      (runRequest srv (n+2) req ck ⟨[], [], []⟩).2.1.refresh = ck.refresh) ∧
    ((runRequest srv (n+2) req ck ⟨[], [], []⟩).2.1.refresh ≠ ck.refresh →
      ∃ s, resp.refresh_token = some s) := by
  have h := runRequest_refresh_success n srv req ck rt resp h1 h2 h3 h4 h5
  rw [h]
  refine ⟨rfl, fun hn => ?_, fun hne => ?_⟩
  · simp [persistRefresh, hn]
  · cases hrt : resp.refresh_token with
    | none => exact absurd (by simp [persistRefresh, hrt]) hne
    | some s => exact ⟨s, rfl⟩

def srvC10 : Server :=
  { respond := fun r => if r.retry then 200 else 401,
    refreshResult := fun _ => some ⟨"newA", none⟩,
    inBrowser := true, pathname := "/debates/1" }

/-- Witness for `refresh_persists_only_returned`: the refresh response
has no `refresh_token`, so the stored one survives while the access
cookie is replaced. -/
theorem refresh_persists_only_returned_witness :
    (runRequest srvC10 2 reqApi ckApi ⟨[], [], []⟩).2.1.access = some "newA" ∧
    (runRequest srvC10 2 reqApi ckApi ⟨[], [], []⟩).2.1.refresh = some "rtok" := by
  have h := refresh_persists_only_returned 0 srvC10 reqApi ckApi "rtok" ⟨"newA", none⟩
    (by decide) rfl rfl rfl rfl
  exact ⟨h.1, h.2.1 rfl⟩

end Api

namespace Store

/-- `AgentRole` union type from `store/debate.ts`. -/
inductive AgentRole
  | skeptic | optimist | expert | pragmatist | synthesizer
deriving Repr, DecidableEq

/-- `ModelProvider` union type. -/
inductive ModelProvider
  | openai | gemini
deriving Repr, DecidableEq

/-- `DebateStatus` union type. -/
inductive DebateStatus
  | pending | active | paused | completed
deriving Repr, DecidableEq

/-- `AgentConfig` interface. The `temperature` is a sampling control in
[0,2]; no store logic computes with it, so it is carried as a rational. -/
structure AgentConfig where
  id : Option String
  name : String
  role : AgentRole
  model_provider : ModelProvider
  model_name : String
  temperature : Rat
  order_index : Option Nat
  is_active : Option Bool
deriving Repr, DecidableEq

/-- `Debate` interface. -/
structure Debate where
  id : String
  topic : String
  description : Option String
  status : DebateStatus
  max_turns : Nat
  current_turn : Nat
  created_at : String
  updated_at : Option String
  completed_at : Option String
  summary : Option String
  agent_configs : List AgentConfig
deriving Repr, DecidableEq

/-- `Message` interface. -/
structure Message where
  id : Option String
  agent_id : Option String
  agent_name : String
  agent_role : Option String
  content : String
  message_type : String
  turn_number : Nat
  timestamp : Option String
  username : Option String
deriving Repr, DecidableEq

/-- `StreamingMessage` interface. -/
structure StreamingMessage where
  agentName : String
  agentRole : String
  agentId : String
  content : String
deriving Repr, DecidableEq

/-- The store fields of `DebateState` (the zustand state, without the
action closures). WebSocket handles are identified by allocation order,
so `wsConnection` is an optional connection id. -/
structure DebateState where
  debates : List Debate
  currentDebate : Option Debate
  messages : List Message
  streamingMessage : Option StreamingMessage
  wsConnection : Option Nat
  isLoading : Bool
  isDebateRunning : Bool
  isPausePending : Bool
  consensusSummary : String
  isGeneratingConsensus : Bool
deriving Repr, DecidableEq

/-- The initial state object passed to `create`. -/
def initialState : DebateState :=
  { debates := [], currentDebate := none, messages := [],
    streamingMessage := none, wsConnection := none, isLoading := false,
    isDebateRunning := false, isPausePending := false,
    consensusSummary := "", isGeneratingConsensus := false }

/-- Payload of an `agent_thinking` event. -/
structure ThinkingPayload where
  agent_name : String
  agent_role : String
  agent_id : String
deriving Repr, DecidableEq

/-- Payload of an `agent_spoke` event. -/
structure SpokePayload where
  message_id : Option String
  agent_id : Option String
  agent_name : String
  agent_role : Option String
  content : String
  message_type : String
  turn_number : Nat
  timestamp : Option String
deriving Repr, DecidableEq

/-- Payload of a `human_spoke` event. -/
structure HumanSpokePayload where
  message_id : Option String
  username : String
  content : String
  message_type : String
  turn_number : Nat
  timestamp : Option String
deriving Repr, DecidableEq

/-- The inbound protocol events dispatched by the `ws.onmessage`
switch, one constructor per `data.type` (plus the default case). -/
inductive WsEvent
  | connected (message : String)
  | debate_started
  | agent_thinking (p : ThinkingPayload)
  | agent_token (token : String)
  | agent_spoke (p : SpokePayload)
  | human_spoke (p : HumanSpokePayload)
  | human_injected
  | debate_paused
  | debate_completed
  | consensus_started
  | consensus_token (token : String)
  | consensus_generated (summary : String)
  | error (err : String)
  | pong
  | pause_acknowledged
  | unknown
deriving Repr, DecidableEq

/-- The Message record appended by the `agent_spoke` case. -/
def spokeMessage (p : SpokePayload) : Message :=
  { id := p.message_id, agent_id := p.agent_id, agent_name := p.agent_name,
    agent_role := p.agent_role, content := p.content,
    message_type := p.message_type, turn_number := p.turn_number,
    timestamp := p.timestamp, username := none }

/-- The Message record appended by the `human_spoke` case
(`agent_name: data.username`; no agent id or role). -/
def humanMessage (p : HumanSpokePayload) : Message :=
  { id := p.message_id, agent_id := none, agent_name := p.username,
    agent_role := none, content := p.content,
    message_type := p.message_type, turn_number := p.turn_number,
    timestamp := p.timestamp, username := some p.username }

/-- The `ws.onmessage` handler: the event switch of
`connectWebSocket`, folding one inbound event into the store state.
Note the handler closure never consults which socket fired it. -/
def onMessage (data : WsEvent) (state : DebateState) : DebateState :=
  match data with
  | .connected _ => state
  | .debate_started =>
    { state with
      isDebateRunning := true, isPausePending := false,
      currentDebate := state.currentDebate.map (fun d => { d with status := .active }) }
  | .agent_thinking p =>
    { state with
      streamingMessage := some ⟨p.agent_name, p.agent_role, p.agent_id, ""⟩ }
  | .agent_token t =>
    match state.streamingMessage with
    | none => state
    | some sm =>
      { state with streamingMessage := some { sm with content := sm.content ++ t } }
  | .agent_spoke p =>
    { state with
      streamingMessage := none,
      messages := state.messages ++ [spokeMessage p],
      currentDebate := state.currentDebate.map
        (fun d => { d with current_turn := p.turn_number }) }
  | .human_spoke p =>
    { state with messages := state.messages ++ [humanMessage p] }
  | .human_injected => state
  | .debate_paused =>
    { state with
      isDebateRunning := false, isPausePending := false,
      currentDebate := state.currentDebate.map (fun d => { d with status := .paused }) }
  | .debate_completed =>
    { state with
      isDebateRunning := false, isPausePending := false,
      currentDebate := state.currentDebate.map (fun d => { d with status := .completed }) }
  | .consensus_started =>
    { state with isGeneratingConsensus := true, consensusSummary := "" }
  | .consensus_token t =>
    { state with consensusSummary := state.consensusSummary ++ t }
  | .consensus_generated s =>
    { state with
      isGeneratingConsensus := false, consensusSummary := s,
      currentDebate := state.currentDebate.map (fun d => { d with summary := some s }) }
  | .error _ =>
    { state with
      isDebateRunning := false, isPausePending := false,
      isGeneratingConsensus := false }
  | .pong => state
  | .pause_acknowledged => state
  | .unknown => state

/-- Delivery of a message event fired by socket `ws`: the installed
`onmessage` closure ignores the socket identity, so the event is folded
in unconditionally. -/
def deliverMessage (_ws : Nat) (data : WsEvent) (state : DebateState) : DebateState :=
  onMessage data state

/-- The `ws.onclose` handler for socket `ws`: clears the connection and
the running/pending flags only if `ws` is still the current
connection. -/
def onClose (ws : Nat) (state : DebateState) : DebateState :=
  if state.wsConnection = some ws then
    { state with
      wsConnection := none, isDebateRunning := false,
      isPausePending := false }
  else state

/-- `connectWebSocket`'s synchronous effect on the store: the previous
socket (if any) is asked to close (its close event arrives later and
goes through `onClose`), a new socket `newWs` is created and stored. -/
def connectWebSocket (newWs : Nat) (state : DebateState) : DebateState :=
  { state with wsConnection := some newWs }

/-- Outbound frames sent over the socket. -/
inductive Frame
  | start_debate
  | pause_debate
  | human_message (content : String) (message_type : String)
deriving Repr, DecidableEq

/-- `WebSocket.OPEN`. -/
def wsOPEN : Nat := 1

/-- `startDebate`: if a connection is stored and its ready state is
OPEN, send a `start_debate` frame and set the running flag; otherwise
only warn. The pair holds the new state and the frames sent. -/
def startDebate (readyState : Nat → Nat) (state : DebateState) :
    DebateState × List Frame :=
  match state.wsConnection with
  | some ws =>
    if readyState ws = wsOPEN then
      ({ state with isDebateRunning := true }, [Frame.start_debate])
    else (state, [])
  | none => (state, [])

/-- `pauseDebate`: if a connection is stored and its ready state is
OPEN, set the pause-pending flag and send a `pause_debate` frame;
otherwise reset the pause-pending flag and send nothing. -/
def pauseDebate (readyState : Nat → Nat) (state : DebateState) :
    DebateState × List Frame :=
  match state.wsConnection with
  | some ws =>
    if readyState ws = wsOPEN then
      ({ state with isPausePending := true }, [Frame.pause_debate])
    else ({ state with isPausePending := false }, [])
  | none => ({ state with isPausePending := false }, [])

/-- Folding a list of inbound events into the store, in delivery
order. -/
def applyEvents (evs : List WsEvent) (state : DebateState) : DebateState :=
  evs.foldl (fun st e => onMessage e st) state


theorem applyEvents_tokens (ts : List String) (s : DebateState) (sm : StreamingMessage)
    (h : s.streamingMessage = some sm) :
    applyEvents (ts.map WsEvent.agent_token) s =
      { s with
        streamingMessage := some { sm with content := ts.foldl (fun acc t => acc ++ t) sm.content } } := by
  induction ts generalizing s sm with
  | nil =>
    simp only [List.map_nil, applyEvents, List.foldl_nil]
    rw [← h]
  | cons t ts ih =>
    simp only [List.map_cons, applyEvents, List.foldl_cons] at *
    have h2 : (onMessage (WsEvent.agent_token t) s).streamingMessage =
        some { sm with content := sm.content ++ t } := by
      simp [onMessage, h]
    rw [ih (onMessage (WsEvent.agent_token t) s) { sm with content := sm.content ++ t } h2]
    simp [onMessage, h]

/-- C9: from any store state, the sequence `consensus_started`,
`consensus_token "A"`, `consensus_token "B"`,
`consensus_generated{summary:"AB"}` ends with `consensusSummary = "AB"`,
the generating flag cleared, and the current debate's summary (when a
debate is loaded) committed to `"AB"`; nothing else changes. -/
theorem consensus_sequence (s : DebateState) :
    applyEvents [WsEvent.consensus_started, WsEvent.consensus_token "A",
        WsEvent.consensus_token "B", WsEvent.consensus_generated "AB"] s =
      { s with
        isGeneratingConsensus := false, consensusSummary := "AB",
        currentDebate := s.currentDebate.map (fun d => { d with summary := some "AB" }) } := rfl

theorem applyEvents_cons (e : WsEvent) (evs : List WsEvent) (s : DebateState) :
    applyEvents (e :: evs) s = applyEvents evs (onMessage e s) := rfl

/-- C3 (amended): after `agent_thinking` and a list of `agent_token`
events, the StreamingFragment holds exactly the concatenation of the
tokens; the `agent_spoke` event then clears it and appends a Message
whose content is the event payload's `content` field (not the token
concatenation), and replaying the same spoke event appends a second
copy rather than being idempotent. -/
theorem spoke_finalizes_with_payload_content (s : DebateState) (q : ThinkingPayload)
    (ts : List String) (p : SpokePayload) :
    (applyEvents (WsEvent.agent_thinking q :: ts.map WsEvent.agent_token) s).streamingMessage
      = some ⟨q.agent_name, q.agent_role, q.agent_id, ts.foldl (fun acc t => acc ++ t) ""⟩ ∧
    (applyEvents ((WsEvent.agent_thinking q :: ts.map WsEvent.agent_token)
        ++ [WsEvent.agent_spoke p]) s).streamingMessage = none ∧
    (applyEvents ((WsEvent.agent_thinking q :: ts.map WsEvent.agent_token)
        ++ [WsEvent.agent_spoke p]) s).messages = s.messages ++ [spokeMessage p] ∧
    (onMessage (WsEvent.agent_spoke p)
        (applyEvents ((WsEvent.agent_thinking q :: ts.map WsEvent.agent_token)
          ++ [WsEvent.agent_spoke p]) s)).messages
      = s.messages ++ [spokeMessage p, spokeMessage p] := by
  have hmid := applyEvents_tokens ts (onMessage (WsEvent.agent_thinking q) s)
    ⟨q.agent_name, q.agent_role, q.agent_id, ""⟩ rfl
  have hfold : applyEvents ((WsEvent.agent_thinking q :: ts.map WsEvent.agent_token)
      ++ [WsEvent.agent_spoke p]) s
      = onMessage (WsEvent.agent_spoke p)
          (applyEvents (ts.map WsEvent.agent_token) (onMessage (WsEvent.agent_thinking q) s)) := by
    simp [applyEvents, List.foldl_append]
  refine ⟨?_, ?_, ?_, ?_⟩
  · rw [applyEvents_cons, hmid]
  · rw [hfold, hmid]; rfl
  · rw [hfold, hmid]; simp [onMessage]
  · rw [hfold, hmid]; simp [onMessage]

def qC3 : ThinkingPayload := ⟨"Ava", "expert", "a1"⟩

def pC3 : SpokePayload :=
  ⟨some "m1", some "a1", "Ava", some "expert", "X", "argument", 1, some "t0"⟩

/-- Counterexample to C3 as stated: the payload content `"X"` differs
from the token concatenation `"AB"`, and the finalized Message carries
`"X"`; moreover replaying the spoke event changes the state again
(appends a duplicate), so the handler is not idempotent. -/
theorem spoke_concat_claim_cex :
    ((applyEvents [WsEvent.agent_thinking qC3, WsEvent.agent_token "A",
        WsEvent.agent_token "B", WsEvent.agent_spoke pC3] initialState).messages.map
        (fun m => m.content) = ["X"]) ∧
    ¬ ((applyEvents [WsEvent.agent_thinking qC3, WsEvent.agent_token "A",
        WsEvent.agent_token "B", WsEvent.agent_spoke pC3] initialState).messages.map
        (fun m => m.content) = ["AB"]) ∧
    onMessage (WsEvent.agent_spoke pC3)
        (applyEvents [WsEvent.agent_thinking qC3, WsEvent.agent_token "A",
          WsEvent.agent_token "B", WsEvent.agent_spoke pC3] initialState)
      ≠ applyEvents [WsEvent.agent_thinking qC3, WsEvent.agent_token "A",
          WsEvent.agent_token "B", WsEvent.agent_spoke pC3] initialState := by decide

/-- Counterexample to C2 as stated: a message event delivered by the
superseded connection 0 after connection 1 has been initiated still
mutates the store (the `onmessage` closure has no generation guard). -/
theorem stale_message_not_ignored_cex :
    deliverMessage 0 (WsEvent.agent_thinking qC3)
        (connectWebSocket 1 { initialState with wsConnection := some 0 })
      ≠ connectWebSocket 1 { initialState with wsConnection := some 0 } := by decide

/-- C2 (amended): only close events from a superseded connection are
no-ops (guarded by the `wsConnection === ws` identity check); message
events are folded in with no generation guard, exactly as if they came
from the current connection. -/
theorem stale_close_noop_message_unguarded (s : DebateState) (ws : Nat) (ev : WsEvent)
    (h : s.wsConnection ≠ some ws) :
    onClose ws s = s ∧ deliverMessage ws ev s = onMessage ev s := by
  refine ⟨?_, rfl⟩
  simp [onClose, h]

/-- Witness for `stale_close_noop_message_unguarded`: the close event of
connection 0 after connection 1 took over leaves the state unchanged. -/
theorem stale_close_noop_witness :
    onClose 0 (connectWebSocket 1 { initialState with wsConnection := some 0 })
        = connectWebSocket 1 { initialState with wsConnection := some 0 } ∧
    deliverMessage 0 WsEvent.pong (connectWebSocket 1 { initialState with wsConnection := some 0 })
        = onMessage WsEvent.pong (connectWebSocket 1 { initialState with wsConnection := some 0 }) :=
  stale_close_noop_message_unguarded
    (connectWebSocket 1 { initialState with wsConnection := some 0 }) 0 WsEvent.pong (by decide)

def dC6 : Debate := ⟨"d1", "topic", none, .active, 5, 5, "now", none, none, none, []⟩

def sC6 : DebateState := { initialState with currentDebate := some dC6 }

def p7 : SpokePayload :=
  ⟨some "m7", some "a1", "Ava", some "expert", "c7", "argument", 7, none⟩

def p3 : SpokePayload :=
  ⟨some "m3", some "a1", "Ava", some "expert", "c3", "argument", 3, none⟩

/-- Counterexample to C6 as stated: with `current_turn = max_turns = 5`,
an `agent_spoke` event with `turn_number 7` pushes `current_turn` above
`max_turns`, and a following one with `turn_number 3` decreases it. -/
theorem current_turn_claim_cex :
    ((onMessage (WsEvent.agent_spoke p7) sC6).currentDebate.map
        (fun d => (d.current_turn, d.max_turns)) = some (7, 5)) ∧
    ¬ ((7:Nat) ≤ 5) ∧
    ((onMessage (WsEvent.agent_spoke p3) (onMessage (WsEvent.agent_spoke p7) sC6)).currentDebate.map
        (fun d => d.current_turn) = some 3) ∧ (3:Nat) < 7 := by decide

/-- C6 (amended): `current_turn` is only ever changed by `agent_spoke`
events, which overwrite it with the event's `turn_number` (no clamping
and no monotonicity check); the claimed invariant
`old ≤ new ≤ max_turns` therefore holds exactly when the delivered turn
numbers themselves respect it. `max_turns` is never changed. -/
theorem current_turn_spoke_overwrites (s : DebateState) (ev : WsEvent) (d : Debate)
    (hd : s.currentDebate = some d)
    (hb : d.current_turn ≤ d.max_turns)
    (hev : ∀ p, ev = WsEvent.agent_spoke p →
      d.current_turn ≤ p.turn_number ∧ p.turn_number ≤ d.max_turns) :
    ∃ d', (onMessage ev s).currentDebate = some d' ∧
      d.current_turn ≤ d'.current_turn ∧ d'.current_turn ≤ d'.max_turns ∧
      d'.max_turns = d.max_turns := by
  cases ev with
  | agent_spoke p =>
    exact ⟨{ d with current_turn := p.turn_number }, by simp [onMessage, hd],
      (hev p rfl).1, (hev p rfl).2, rfl⟩
  | agent_token t =>
    cases hsm : s.streamingMessage with
    | none => exact ⟨d, by simp [onMessage, hsm, hd], le_refl _, hb, rfl⟩
    | some sm => exact ⟨d, by simp [onMessage, hsm, hd], le_refl _, hb, rfl⟩
  | debate_started =>
    exact ⟨{ d with status := .active }, by simp [onMessage, hd], le_refl _, hb, rfl⟩
  | debate_paused =>
    exact ⟨{ d with status := .paused }, by simp [onMessage, hd], le_refl _, hb, rfl⟩
  | debate_completed =>
    exact ⟨{ d with status := .completed }, by simp [onMessage, hd], le_refl _, hb, rfl⟩
  | consensus_generated sum =>
    exact ⟨{ d with summary := some sum }, by simp [onMessage, hd], le_refl _, hb, rfl⟩
  | connected m => exact ⟨d, by simp [onMessage, hd], le_refl _, hb, rfl⟩
  | agent_thinking q => exact ⟨d, by simp [onMessage, hd], le_refl _, hb, rfl⟩
  | human_spoke p => exact ⟨d, by simp [onMessage, hd], le_refl _, hb, rfl⟩
  | human_injected => exact ⟨d, by simp [onMessage, hd], le_refl _, hb, rfl⟩
  | consensus_started => exact ⟨d, by simp [onMessage, hd], le_refl _, hb, rfl⟩
  | consensus_token t => exact ⟨d, by simp [onMessage, hd], le_refl _, hb, rfl⟩
  | error e => exact ⟨d, by simp [onMessage, hd], le_refl _, hb, rfl⟩
  | pong => exact ⟨d, by simp [onMessage, hd], le_refl _, hb, rfl⟩
  | pause_acknowledged => exact ⟨d, by simp [onMessage, hd], le_refl _, hb, rfl⟩
  | unknown => exact ⟨d, by simp [onMessage, hd], le_refl _, hb, rfl⟩

def p5 : SpokePayload :=
  ⟨some "m5", some "a1", "Ava", some "expert", "c5", "argument", 5, none⟩

/-- Witness for `current_turn_spoke_overwrites`: a spoke event whose
turn number stays within the bound preserves the invariant. -/
theorem current_turn_spoke_overwrites_witness :
    ∃ d', (onMessage (WsEvent.agent_spoke p5) sC6).currentDebate = some d' ∧
      dC6.current_turn ≤ d'.current_turn ∧ d'.current_turn ≤ d'.max_turns ∧
      d'.max_turns = dC6.max_turns :=
  current_turn_spoke_overwrites sC6 (WsEvent.agent_spoke p5) dC6 rfl (by decide)
    (fun p hp => by injection hp with h; subst h; exact ⟨by decide, by decide⟩)

def rsOpen : Nat → Nat := fun _ => 1

def dDone : Debate := ⟨"d1", "t", none, .completed, 5, 5, "now", none, none, none, []⟩

def sNotRunning : DebateState :=
  { initialState with
    wsConnection := some 0, currentDebate := some dDone, isDebateRunning := false }

/-- Counterexample to C7 as stated: with an open socket, `pauseDebate`
sends a `pause_debate` frame although the debate is not running, and
`startDebate` sends a `start_debate` frame although the session status
is `completed`. -/
theorem start_pause_noop_claim_cex :
    sNotRunning.isDebateRunning = false ∧
    (pauseDebate rsOpen sNotRunning).2 = [Frame.pause_debate] ∧
    sNotRunning.currentDebate.map (fun d => d.status) = some DebateStatus.completed ∧
    (startDebate rsOpen sNotRunning).2 = [Frame.start_debate] := by decide

/-- C7 (amended): `startDebate` and `pauseDebate` are gated only on the
socket being stored and OPEN, not on the running flag or the session
status: with an open socket they send their frame even when the debate
is not running resp. the status is active or completed, and with no
stored socket both send nothing (`pauseDebate` additionally resets the
pause-pending flag). The running/status validity gating lives in the
page component, not in these store actions. -/
theorem start_pause_socket_gated (rs : Nat → Nat) (s : DebateState) :
    (∀ ws, s.wsConnection = some ws → rs ws = wsOPEN →
      (s.isDebateRunning = false →
        pauseDebate rs s = ({ s with isPausePending := true }, [Frame.pause_debate])) ∧
      (∀ d, s.currentDebate = some d →
        d.status = DebateStatus.active ∨ d.status = DebateStatus.completed →
        startDebate rs s = ({ s with isDebateRunning := true }, [Frame.start_debate]))) ∧
    (s.wsConnection = none →
      startDebate rs s = (s, []) ∧
      pauseDebate rs s = ({ s with isPausePending := false }, [])) := by
  constructor
  · intro ws hws hopen
    constructor
    · intro _
      simp [pauseDebate, hws, hopen]
    · intro d _ _
      simp [startDebate, hws, hopen]
  · intro hnone
    exact ⟨by simp [startDebate, hnone], by simp [pauseDebate, hnone]⟩

/-- Witness for `start_pause_socket_gated` at the concrete not-running,
completed-status state with an open socket. -/
theorem start_pause_socket_gated_witness :
    pauseDebate rsOpen sNotRunning
        = ({ sNotRunning with isPausePending := true }, [Frame.pause_debate]) ∧
    startDebate rsOpen sNotRunning
        = ({ sNotRunning with isDebateRunning := true }, [Frame.start_debate]) := by
  have h := start_pause_socket_gated rsOpen sNotRunning
  exact ⟨(h.1 0 rfl rfl).1 rfl, (h.1 0 rfl rfl).2 dDone rfl (Or.inr rfl)⟩

def sPending : DebateState :=
  { initialState with wsConnection := some 0, isPausePending := true }

/-- Counterexample to C8 as stated: with a pause already pending and an
open socket, a further `pauseDebate` call emits another
`pause_debate` frame. -/
theorem duplicate_pause_frame_cex :
    sPending.isPausePending = true ∧
    (pauseDebate rsOpen sPending).2 = [Frame.pause_debate] := by decide

/-- C8 (amended): the store does not suppress duplicate pause frames:
while a pause is pending, a further `pauseDebate` call with an open
socket sends another `pause_debate` frame and leaves the state as it
was (duplicate suppression exists only in the UI, which disables the
pause button while `isPausePending` is set). -/
theorem pause_resends_while_pending (rs : Nat → Nat) (s : DebateState) (ws : Nat)
    (hp : s.isPausePending = true) (hws : s.wsConnection = some ws)
    (hopen : rs ws = wsOPEN) :
    pauseDebate rs s = (s, [Frame.pause_debate]) := by
  obtain ⟨sda, scd, sms, ssm, swc, sil, sir, sip, scs, sig⟩ := s
  simp_all [pauseDebate, wsOPEN]

/-- Witness for `pause_resends_while_pending` at the concrete pending
state. -/
theorem pause_resends_while_pending_witness :
    pauseDebate rsOpen sPending = (sPending, [Frame.pause_debate]) :=
  pause_resends_while_pending rsOpen sPending 0 rfl rfl rfl

end Store

end LetsDebate
